import Mathlib

/-!
Verification of the EcoSchool carbon-accounting core
(`EcoSchool_Streamlit_App.py`) against its specification.

The SQLite-backed state is embedded shallowly: the `entries` table is a
list of `Entry` records (insertion order = rowid order, ids assigned by
the autoincrement counter `nextId`), the `factors` table is an
association list from category to factor.  Real-valued columns
(`quantity`, `factor`, `co2`) are modelled as `ℚ`; `timestamp` and
`date` columns hold ISO-8601 strings whose lexicographic order is their
chronological order, so they are modelled as naturals with the usual
order.
-/

namespace EcoSchool

/-- One row of the `entries` table (schema from `init_db`, lines 166-182
of the source; the `photo` blob is omitted as an opaque payload unused by
any computation). `verified` is the 0/1 integer column as a boolean. -/
structure Entry where
  id : Nat
  timestamp : Nat
  date : Nat
  student : String
  class_name : String
  category : String
  quantity : Rat
  unit : String
  notes : String
  verified : Bool
  points : Int
  co2 : Rat
  deriving DecidableEq

/-- The persistent SQLite state: the `entries` table, the `factors`
table, and the autoincrement counter for `entries.id`. -/
structure DB where
  entries : List Entry
  factors : List (String × Rat)
  nextId : Nat
  deriving DecidableEq

/-- Primary-key lookup in the `factors` table
(`SELECT factor FROM factors WHERE category = ?`). -/
def lookupFactor : List (String × Rat) → String → Option Rat
  | [], _ => none
  | (c, f) :: rest, cat => if c = cat then some f else lookupFactor rest cat

/-- `factors.get(category, 0)` — the Python dict fallback used by
`compute_co2` (source line 256): the stored factor, or 0 when the
category is absent. -/
def getFactor (factors : List (String × Rat)) (category : String) : Rat :=
  (lookupFactor factors category).getD 0

/-- `compute_co2(category, quantity, factors)` (source lines 255-257):
`factor = factors.get(category, 0); return float(quantity) * float(factor)`. -/
def compute_co2 (category : String) (quantity : Rat) (factors : List (String × Rat)) : Rat :=
  quantity * getFactor factors category

/-- Python's built-in `round` on an exact value: nearest integer, ties
to the even integer. -/
def pyRound (q : Rat) : Int :=
  let fl := ⌊q⌋
  let fr := q - fl
  if fr < 1 / 2 then fl
  else if 1 / 2 < fr then fl + 1
  else if fl % 2 = 0 then fl else fl + 1

/-- `points_for_co2(co2)` (source lines 260-262):
`int(round(max(1, co2 * 2)))`. -/
def points_for_co2 (co2 : Rat) : Int :=
  pyRound (max 1 (co2 * 2))

/-- The Python exception raised by `float(...)` on a non-numeric value
inside `set_factor` (source line 210). -/
inductive PyError where
  | valueError
  deriving DecidableEq

/-- `REPLACE INTO factors (category, factor) VALUES (?, ?)` with
`category` the primary key: the conflicting row (if any) is deleted and
the fresh row inserted (at the end, in rowid order). -/
def replaceFactor (fs : List (String × Rat)) (c : String) (q : Rat) : List (String × Rat) :=
  fs.filter (fun p => p.1 ≠ c) ++ [(c, q)]

/-- `set_factor(category, factor)` (source lines 207-212).  The raw cell
value is modelled as `Option ℚ`: `some q` when Python's `float(factor)`
coerces it to the real `q` (any sign — the source has no sign check),
`none` when `float` raises `ValueError`; in the latter case the
exception propagates before the `REPLACE` executes, so no state
changes. -/
def set_factor (db : DB) (category : String) (value : Option Rat) : Except PyError DB :=
  match value with
  | none => .error .valueError
  | some q => .ok { db with factors := replaceFactor db.factors category q }

/-- The dict handed to `add_entry_to_db` (source lines 480-493): every
`entries` column except the ledger-assigned `id`. -/
structure EntryData where
  timestamp : Nat
  date : Nat
  student : String
  class_name : String
  category : String
  quantity : Rat
  unit : String
  notes : String
  verified : Bool
  points : Int
  co2 : Rat
  deriving DecidableEq

/-- `add_entry_to_db(entry)` (source lines 215-225): `INSERT INTO
entries`, with `id` assigned by SQLite's autoincrement. -/
def add_entry_to_db (db : DB) (e : EntryData) : DB :=
  { db with
    entries := db.entries ++
      [⟨db.nextId, e.timestamp, e.date, e.student, e.class_name, e.category,
        e.quantity, e.unit, e.notes, e.verified, e.points, e.co2⟩]
    nextId := db.nextId + 1 }

/-- The `ORDER BY timestamp DESC` comparison on rows. -/
def tsDesc (a b : Entry) : Prop := b.timestamp ≤ a.timestamp

instance : DecidableRel tsDesc := fun a b => Nat.decLe b.timestamp a.timestamp

instance : IsTotal Entry tsDesc := ⟨fun a b => Nat.le_total b.timestamp a.timestamp⟩

instance : IsTrans Entry tsDesc := ⟨fun _ _ _ h1 h2 => le_trans h2 h1⟩

/-- `load_entries(only_verified)` (source lines 228-236):
`SELECT * FROM entries ORDER BY timestamp DESC`, then
`df[df['verified'] == (1 if only_verified else 0)]` when a verification
filter is requested.  (The subsequent `pd.to_datetime` conversion of the
`date` column changes no row and no order.) -/
def load_entries (db : DB) (only_verified : Option Bool) : List Entry :=
  let sorted := List.insertionSort tsDesc db.entries
  match only_verified with
  | none => sorted
  | some b => sorted.filter (fun e => e.verified = b)

/-- `verify_entry(entry_id)` (source lines 239-244):
`UPDATE entries SET verified=1 WHERE id=?`.  An id matching no row
updates nothing and raises nothing. -/
def verify_entry (db : DB) (entry_id : Nat) : DB :=
  { db with
    entries := db.entries.map fun e =>
      if e.id = entry_id then { e with verified := true } else e }

/-- `clear_all_entries()` (source lines 245-250): `DELETE FROM entries`. -/
def clear_all_entries (db : DB) : DB :=
  { db with entries := [] }

/-- `DEFAULT_FACTORS` (source lines 53-58), in definition order. -/
def DEFAULT_FACTORS : List (String × Rat) :=
  [("Paper (sheets)", 5 / 1000), ("Plastic (kg)", 6),
   ("Food/Waste (kg)", 3), ("Transport (km)", 21 / 100)]

/-- `INSERT OR IGNORE INTO factors (category, factor)` (source line
192): insert at the end unless the primary key is already present. -/
def insertOrIgnore (fs : List (String × Rat)) (c : String) (q : Rat) : List (String × Rat) :=
  match lookupFactor fs c with
  | some _ => fs
  | none => fs ++ [(c, q)]

/-- The seeding loop of `init_db` (source lines 191-192). -/
def seedFactors (defaults : List (String × Rat)) (fs : List (String × Rat)) : List (String × Rat) :=
  defaults.foldl (fun acc cf => insertOrIgnore acc cf.1 cf.2) fs

/-- `init_db()` (source lines 162-194): `CREATE TABLE IF NOT EXISTS` for
both tables (a no-op on the logical state) followed by
`INSERT OR IGNORE` of every `DEFAULT_FACTORS` pair. -/
def init_db (db : DB) : DB :=
  { db with factors := seedFactors DEFAULT_FACTORS db.factors }

/-- The three validation failures of the submission form handler
(source lines 470-475), each surfaced via `st.error` with no state
change. -/
inductive SubmitError where
  | studentRequired
  | classRequired
  | quantityNotPositive
  deriving DecidableEq

/-- Python `str.isspace` membership for a single char: the whitespace
set stripped by `str.strip()` (ASCII part; the identity labels here are
form text). -/
def isPySpace (c : Char) : Bool :=
  c = ' ' ∨ c = '\t' ∨ c = '\n' ∨ c = '\x0b' ∨ c = '\x0c' ∨ c = '\r'

/-- Python `s.strip()`: the string with leading and trailing whitespace
removed. -/
def pyStrip (s : String) : String :=
  ⟨((s.data.dropWhile isPySpace).reverse.dropWhile isPySpace).reverse⟩

/-- The raw fields of the add-entry form (source lines 457-465). -/
structure FormInput where
  student : String
  class_name : String
  date_val : Nat
  category : String
  qty : Rat
  unit : String
  notes : String
  deriving DecidableEq

/-- The submission handler (source lines 468-494): reject a blank
(whitespace-only) student, then a blank class, then `qty <= 0`;
otherwise compute `co2 = compute_co2(category, qty, factors)` against
the factor table as loaded at that moment and insert the row.  The
source also computes `pts = points_for_co2(co2)` here but the inserted
dict carries the literal `points: 0`, so `_pts` is dead. -/
def submit_entry (db : DB) (now_ts : Nat) (inp : FormInput) : Except SubmitError DB :=
  if pyStrip inp.student = "" then .error .studentRequired
  else if pyStrip inp.class_name = "" then .error .classRequired
  else if inp.qty ≤ 0 then .error .quantityNotPositive
  else
    let co2 := compute_co2 inp.category inp.qty db.factors
    let _pts := points_for_co2 co2
    .ok (add_entry_to_db db
      ⟨now_ts, inp.date_val, inp.student, inp.class_name, inp.category,
       inp.qty, inp.unit, inp.notes, false, 0, co2⟩)

/-- Lexicographic comparison of char lists by code point — the order
Python uses on `str`. -/
def charListLe : List Char → List Char → Bool
  | [], _ => true
  | _ :: _, [] => false
  | a :: as, b :: bs =>
    if a < b then true else if b < a then false else charListLe as bs

/-- Python string `<=`, used by pandas when sorting group keys. -/
def strLe (a b : String) : Bool := charListLe a.data b.data

/-- Python tuple comparison on `(student, class_name)` group keys. -/
def keyLe (a b : String × String) : Bool :=
  if strLe a.1 b.1 then (if strLe b.1 a.1 then strLe a.2 b.2 else true) else false

/-- The `(student, class_name)` group key of a row. -/
def keyOf (e : Entry) : String × String := (e.student, e.class_name)

/-- The group keys produced by `df.groupby(['student', 'class_name'])`:
the distinct keys, sorted ascending (pandas sorts group keys by
default). -/
def groupKeys (l : List Entry) : List (String × String) :=
  List.insertionSort (fun a b => keyLe a b = true) (l.map keyOf).dedup

/-- `['co2'].sum()` over a block of rows. -/
def sumCo2 (l : List Entry) : Rat := (l.map Entry.co2).sum

/-- `df.groupby(['student', 'class_name']).agg(co2 = sum).reset_index()`
(source lines 397 and 531): one row per distinct key, keys ascending,
carrying the group's summed `co2`. -/
def groupAgg (l : List Entry) : List ((String × String) × Rat) :=
  (groupKeys l).map fun k => (k, sumCo2 (l.filter fun e => keyOf e = k))

/-- The `sort_values(by='co2', ascending=True)` comparison on aggregated
rows. -/
def co2Le (a b : (String × String) × Rat) : Prop := a.2 ≤ b.2

instance : DecidableRel co2Le := fun a b => inferInstanceAs (Decidable (a.2 ≤ b.2))

/-- One displayed leaderboard row. -/
structure RankedRow where
  rank : Nat
  student : String
  class_name : String
  co2 : Rat
  deriving DecidableEq

/-- `reset_index(drop=True)` followed by `df['rank'] = df.index + 1`
(source lines 399 and 533): the rank column is the 1-based position. -/
def rank_rows (l : List ((String × String) × Rat)) : List RankedRow :=
  l.enum.map fun p => ⟨p.1 + 1, p.2.1.1, p.2.1.2, p.2.2⟩

/-- The leaderboard-tab timeframe filter (source lines 525-530):
`df[df['date'] >= now - Timedelta(days=n)]`, with `cutoff = now - n`
days; `none` is the "All Time" branch. -/
def timeframe_filter (cutoff : Option Nat) (l : List Entry) : List Entry :=
  match cutoff with
  | none => l
  | some t => l.filter fun e => t ≤ e.date

/-- The student leaderboard (source lines 519-533):
`load_entries(only_verified=True)`, timeframe filter, group by
`(student, class_name)` summing `co2`, sort ascending by `co2`, rank by
position.  (pandas' default `sort_values` kind is not stable, so the
source's order among equal totals is unspecified; the stable insertion
sort fixes one refinement of it.) -/
def leaderboard_rows (db : DB) (cutoff : Option Nat) : List RankedRow :=
  rank_rows (List.insertionSort co2Le
    (groupAgg (timeframe_filter cutoff (load_entries db (some true)))))

/-- The dashboard "Weekly Top 3" (source lines 391-401):
`load_entries(only_verified=True)`, keep rows with `date >= now - 7
days` (`cutoff = now - 7` days), group, sort ascending by `co2`,
`head(3)`, rank by position. -/
def weekly_top3 (db : DB) (cutoff : Nat) : List RankedRow :=
  rank_rows ((List.insertionSort co2Le
    (groupAgg ((load_entries db (some true)).filter fun e => cutoff ≤ e.date))).take 3)

/-- `df.groupby('class_name')['co2'].sum().reset_index()` over a block
of rows: one row per distinct class, classes ascending, with summed
`co2`. -/
def classAgg (l : List Entry) : List (String × Rat) :=
  (List.insertionSort (fun a b => strLe a b = true) (l.map Entry.class_name).dedup).map
    fun k => (k, sumCo2 (l.filter fun e => e.class_name = k))

/-- The leaderboard-tab "Class / Section CO₂ Emitted Comparison"
(source lines 506-517): `df.groupby('class_name')['co2'].sum()` sorted
ascending by `co2` — where `df` is the variable left over from the
dashboard tab, which holds `load_entries()` (ALL entries, no
verification filter) whenever the ledger is non-empty (source lines
340-342). -/
def class_emissions (db : DB) : List (String × Rat) :=
  List.insertionSort (fun a b : String × Rat => a.2 ≤ b.2)
    (classAgg (load_entries db none))

/-!  General lemmas: insertion sort is stable under `filter`, so the SQL
`ORDER BY` pass and the pandas `verified` filter commute.  -/

section StableFilter

variable {α : Type} (r : α → α → Prop) [DecidableRel r] (p : α → Bool)

theorem filter_orderedInsert_of_neg (x : α) (hx : p x = false) (l : List α) :
    (List.orderedInsert r x l).filter p = l.filter p := by
  induction l with
  | nil => simp [List.orderedInsert, hx]
  | cons y t ih =>
    by_cases h : r x y
    · simp [List.orderedInsert, h, List.filter_cons, hx]
    · simp only [List.orderedInsert, if_neg h, List.filter_cons, ih]

theorem orderedInsert_eq_cons_of_forall (x : α) (l : List α) (h : ∀ z ∈ l, r x z) :
    List.orderedInsert r x l = x :: l := by
  cases l with
  | nil => rfl
  | cons z t => simp [List.orderedInsert, h z (List.mem_cons_self z t)]

theorem filter_orderedInsert_of_pos [IsTotal α r] [IsTrans α r] (x : α) (hx : p x = true)
    (l : List α) (hs : l.Sorted r) :
    (List.orderedInsert r x l).filter p = List.orderedInsert r x (l.filter p) := by
  induction l with
  | nil => simp [List.orderedInsert, hx]
  | cons y t ih =>
    by_cases h : r x y
    · rw [List.orderedInsert, if_pos h]
      by_cases hy : p y = true
      · simp [List.filter_cons, hx, hy, List.orderedInsert, h]
      · have hy2 : p y = false := by simpa using hy
        have hall : ∀ z ∈ t.filter p, r x z := by
          intro z hz
          exact IsTrans.trans x y z h
            (List.rel_of_sorted_cons hs z (List.mem_of_mem_filter hz))
        rw [List.filter_cons, if_pos hx, List.filter_cons, if_neg (by simp [hy2]),
          orderedInsert_eq_cons_of_forall r x _ hall]
    · rw [List.orderedInsert, if_neg h]
      have ht := ih hs.of_cons
      by_cases hy : p y = true
      · simp only [List.filter_cons, if_pos hy, ht, List.orderedInsert, if_neg h]
      · have hy2 : p y = false := by simpa using hy
        simp only [List.filter_cons, if_neg (by simp [hy2] : ¬ p y = true), ht]

theorem filter_insertionSort [IsTotal α r] [IsTrans α r] (l : List α) :
    (List.insertionSort r l).filter p = List.insertionSort r (l.filter p) := by
  induction l with
  | nil => rfl
  | cons x t ih =>
    by_cases hx : p x = true
    · rw [List.insertionSort,
        filter_orderedInsert_of_pos r p x hx _ (List.sorted_insertionSort r t), ih,
        List.filter_cons, if_pos hx, List.insertionSort]
    · have hx2 : p x = false := by simpa using hx
      rw [List.insertionSort, filter_orderedInsert_of_neg r p x hx2, ih, List.filter_cons,
        if_neg (by simp [hx2] : ¬ p x = true)]

end StableFilter

/-- `load_entries` with a verification filter equals the sort of the
filtered table: sorting first and filtering after (as the source does)
loses nothing, because insertion sort is stable. -/
theorem load_entries_some (db : DB) (b : Bool) :
    load_entries db (some b) =
      List.insertionSort tsDesc (db.entries.filter fun e => e.verified = b) := by
  unfold load_entries
  exact filter_insertionSort tsDesc _ db.entries

/-- `REPLACE` stores the new factor under its category. -/
theorem lookupFactor_replace_same (fs : List (String × Rat)) (c : String) (q : Rat) :
    lookupFactor (replaceFactor fs c q) c = some q := by
  induction fs with
  | nil => simp [replaceFactor, lookupFactor]
  | cons a t ih =>
    by_cases h : a.1 = c
    · simpa [replaceFactor, List.filter_cons, h] using ih
    · simpa [replaceFactor, List.filter_cons, h, lookupFactor] using ih

/-- `REPLACE` touches no other category. -/
theorem lookupFactor_replace_other (fs : List (String × Rat)) (c c2 : String) (q : Rat)
    (h : c2 ≠ c) : lookupFactor (replaceFactor fs c q) c2 = lookupFactor fs c2 := by
  have hc : ¬ c = c2 := fun hh => h hh.symm
  induction fs with
  | nil => simp [replaceFactor, lookupFactor, hc]
  | cons a t ih =>
    obtain ⟨a1, a2⟩ := a
    by_cases ha : a1 = c
    · have ha2 : ¬ a1 = c2 := by rw [ha]; exact hc
      simpa [replaceFactor, List.filter_cons, ha, ha2, lookupFactor, hc] using ih
    · by_cases ha2 : a1 = c2
      · simp [replaceFactor, List.filter_cons, ha, lookupFactor, ha2, hc, h]
      · simpa [replaceFactor, List.filter_cons, ha, lookupFactor, ha2] using ih

/-- A key found in the left part of an appended table is found with the
same value in the whole table. -/
theorem lookupFactor_append_left (l1 l2 : List (String × Rat)) (c : String) (q : Rat)
    (h : lookupFactor l1 c = some q) : lookupFactor (l1 ++ l2) c = some q := by
  induction l1 with
  | nil => simp [lookupFactor] at h
  | cons a t ih =>
    by_cases ha : a.1 = c
    · obtain ⟨a1, a2⟩ := a
      simp_all [lookupFactor]
    · obtain ⟨a1, a2⟩ := a
      simp_all [lookupFactor]

/-- `INSERT OR IGNORE` keeps every present binding. -/
theorem lookupFactor_insertOrIgnore (fs : List (String × Rat)) (c c2 : String) (q q2 : Rat)
    (h : lookupFactor fs c2 = some q2) :
    lookupFactor (insertOrIgnore fs c q) c2 = some q2 := by
  unfold insertOrIgnore
  cases hl : lookupFactor fs c with
  | some _ => exact h
  | none => exact lookupFactor_append_left fs _ c2 q2 h

/-- Seeding keeps every present binding (no overwrite, no delete). -/
theorem lookupFactor_seed (ds : List (String × Rat)) (fs : List (String × Rat))
    (c : String) (q : Rat) (h : lookupFactor fs c = some q) :
    lookupFactor (seedFactors ds fs) c = some q := by
  induction ds generalizing fs with
  | nil => exact h
  | cons d t ih =>
    exact ih _ (lookupFactor_insertOrIgnore fs d.1 c d.2 q h)

/-- After `INSERT OR IGNORE` of a category, the category is present. -/
theorem insertOrIgnore_present (fs : List (String × Rat)) (c : String) (q : Rat) :
    (lookupFactor (insertOrIgnore fs c q) c).isSome := by
  unfold insertOrIgnore
  cases hl : lookupFactor fs c with
  | some v => simp [hl]
  | none =>
    have : lookupFactor (fs ++ [(c, q)]) c = some q := by
      induction fs with
      | nil => simp [lookupFactor]
      | cons a t ih =>
        by_cases ha : a.1 = c
        · obtain ⟨a1, a2⟩ := a
          simp_all [lookupFactor]
        · obtain ⟨a1, a2⟩ := a
          simp_all [lookupFactor]
    simp [this]

/-- After seeding, every seeded category is present. -/
theorem seed_present (ds : List (String × Rat)) (fs : List (String × Rat)) :
    ∀ d ∈ ds, (lookupFactor (seedFactors ds fs) d.1).isSome := by
  induction ds generalizing fs with
  | nil => simp
  | cons a t ih =>
    intro d2 hd2
    rcases List.mem_cons.mp hd2 with h | h
    · rw [h]
      show (lookupFactor (seedFactors t (insertOrIgnore fs a.1 a.2)) a.1).isSome
      obtain ⟨v, hv⟩ := Option.isSome_iff_exists.mp (insertOrIgnore_present fs a.1 a.2)
      simp [lookupFactor_seed t _ a.1 v hv]
    · exact ih (insertOrIgnore fs a.1 a.2) d2 h

/-- Seeding a table in which every seeded category is already present
changes nothing. -/
theorem seed_of_present (ds : List (String × Rat)) (fs : List (String × Rat)) :
    (∀ d ∈ ds, (lookupFactor fs d.1).isSome) → seedFactors ds fs = fs := by
  induction ds with
  | nil => intro _; rfl
  | cons a t ih =>
    intro h
    have hd := h a (List.mem_cons_self a t)
    obtain ⟨v, hv⟩ := Option.isSome_iff_exists.mp hd
    show seedFactors t (insertOrIgnore fs a.1 a.2) = fs
    rw [insertOrIgnore, hv]
    exact ih fun d2 hd2 => h d2 (List.mem_cons_of_mem a hd2)

/-- C1: for every category `c`, quantity `q` and factor table `F`, the
CO₂ estimate is `q` times the factor stored for `c` in `F`, and is `0`
when `c` is absent from `F` (the unknown-category fallback yields factor
0, not an error). -/
theorem compute_co2_spec (c : String) (q : Rat) (F : List (String × Rat)) :
    (∀ f, lookupFactor F c = some f → compute_co2 c q F = q * f) ∧
    (lookupFactor F c = none → compute_co2 c q F = 0) := by
  constructor
  · intro f h
    simp [compute_co2, getFactor, h]
  · intro h
    simp [compute_co2, getFactor, h]

/-- C1 witness: the spec's own scenario — factor 0.005 for paper and
200 sheets give 1 kg, an unknown category gives 0. -/
theorem compute_co2_spec_witness :
    compute_co2 "Paper (sheets)" 200 DEFAULT_FACTORS = 200 * (5 / 1000) ∧
    compute_co2 "Unknown" 50 DEFAULT_FACTORS = 0 :=
  ⟨(compute_co2_spec "Paper (sheets)" 200 DEFAULT_FACTORS).1 (5 / 1000)
      (by simp [DEFAULT_FACTORS, lookupFactor]),
   (compute_co2_spec "Unknown" 50 DEFAULT_FACTORS).2
      (by simp [DEFAULT_FACTORS, lookupFactor])⟩

/-- C8: `load_entries` returns the rows sorted by timestamp descending
(newest first), and its filter selects exactly by verification status —
all rows, the verified ones, or the unverified ones — performing no
other filtering. -/
theorem load_entries_spec (db : DB) (f : Option Bool) :
    (load_entries db f).Sorted tsDesc ∧
    List.Perm (load_entries db f) (db.entries.filter fun e =>
      match f with
      | none => true
      | some b => decide (e.verified = b)) := by
  cases f with
  | none =>
    refine ⟨List.sorted_insertionSort tsDesc db.entries, ?_⟩
    simpa [List.filter_true] using List.perm_insertionSort tsDesc db.entries
  | some b =>
    refine ⟨(List.sorted_insertionSort tsDesc db.entries).filter _, ?_⟩
    exact (List.perm_insertionSort tsDesc db.entries).filter _

/-- C9: factor-table seeding is idempotent — on an empty table it
inserts exactly the default pairs; on any table it inserts only absent
categories, never overwriting a stored factor — so running it twice is
running it once.  (It also leaves the entries table alone.) -/
theorem init_db_spec (db : DB) :
    init_db (init_db db) = init_db db ∧
    (∀ c q, lookupFactor db.factors c = some q →
      lookupFactor (init_db db).factors c = some q) ∧
    (db.factors = [] → (init_db db).factors = DEFAULT_FACTORS) ∧
    (init_db db).entries = db.entries := by
  refine ⟨?_, ?_, ?_, rfl⟩
  · unfold init_db
    congr 1
    exact seed_of_present DEFAULT_FACTORS (seedFactors DEFAULT_FACTORS db.factors)
      (seed_present DEFAULT_FACTORS db.factors)
  · intro c q h
    exact lookupFactor_seed DEFAULT_FACTORS db.factors c q h
  · intro h
    show seedFactors DEFAULT_FACTORS db.factors = DEFAULT_FACTORS
    rw [h]
    simp [seedFactors, DEFAULT_FACTORS, insertOrIgnore, lookupFactor]

/-- C9 witness: a table already holding a non-default factor for
"Transport (km)" keeps it through seeding, seeding is idempotent there,
and seeding the empty table yields exactly the defaults. -/
theorem init_db_spec_witness :
    init_db (init_db (DB.mk [] [("Transport (km)", 1)] 1)) =
      init_db (DB.mk [] [("Transport (km)", 1)] 1) ∧
    lookupFactor (init_db (DB.mk [] [("Transport (km)", 1)] 1)).factors
      "Transport (km)" = some 1 ∧
    (init_db (DB.mk [] [] 1)).factors = DEFAULT_FACTORS :=
  ⟨(init_db_spec (DB.mk [] [("Transport (km)", 1)] 1)).1,
   (init_db_spec (DB.mk [] [("Transport (km)", 1)] 1)).2.1 "Transport (km)" 1
      (by simp [lookupFactor]),
   (init_db_spec (DB.mk [] [] 1)).2.2.1 rfl⟩

/-- Re-setting the `verified` flag of an already-verified row changes
nothing. -/
theorem entry_set_verified_self (e : Entry) (h : e.verified = true) :
    { e with verified := true } = e := by
  cases e
  simp only at h
  simp [h]

/-- C3 (amended): `verify_entry` is idempotent, re-verifying an
already-verified entry is a no-op, and calling it with an id absent from
the ledger is also a silent no-op that leaves the ledger unchanged — the
`UPDATE` matches no row and raises nothing, so no `NotFoundError`
exists. -/
theorem verify_entry_spec (db : DB) (id : Nat) :
    verify_entry (verify_entry db id) id = verify_entry db id ∧
    ((∀ e ∈ db.entries, e.id = id → e.verified = true) → verify_entry db id = db) ∧
    ((∀ e ∈ db.entries, e.id ≠ id) → verify_entry db id = db) := by
  refine ⟨?_, ?_, ?_⟩
  · unfold verify_entry
    simp only [List.map_map]
    congr 1
    apply List.map_congr_left
    intro e _
    by_cases h : e.id = id <;> simp [h, Function.comp]
  · intro h
    unfold verify_entry
    conv_rhs => rw [show db = { db with entries := db.entries } from rfl,
      show db.entries = db.entries.map (fun e => e) by simp]
    congr 1
    apply List.map_congr_left
    intro e he
    by_cases hid : e.id = id
    · simp only [if_pos hid]
      exact entry_set_verified_self e (h e he hid)
    · simp [hid]
  · intro h
    unfold verify_entry
    conv_rhs => rw [show db = { db with entries := db.entries } from rfl,
      show db.entries = db.entries.map (fun e => e) by simp]
    congr 1
    apply List.map_congr_left
    intro e he
    simp [h e he]

/-- A one-row ledger whose only entry has id 1 and is verified. -/
def C3db : DB :=
  DB.mk [Entry.mk 1 1 10 "s" "c" "Paper (sheets)" 200 "sheets" "" true 0 1]
    DEFAULT_FACTORS 2

/-- C3 counterexample: calling `verify_entry` with id 99, which no
ledger row carries, does not fail — it returns the ledger unchanged
(the claim says it fails with `NotFoundError`). -/
theorem verify_entry_unknown_id_silent :
    (99 ∉ C3db.entries.map Entry.id) ∧ verify_entry C3db 99 = C3db := by
  constructor
  · simp [C3db]
  · simp [verify_entry, C3db]

/-- C3 witness: idempotence and the verified no-op at the concrete
one-row ledger. -/
theorem verify_entry_spec_witness :
    verify_entry (verify_entry C3db 1) 1 = verify_entry C3db 1 ∧
    verify_entry C3db 1 = C3db :=
  ⟨(verify_entry_spec C3db 1).1,
   (verify_entry_spec C3db 1).2.1 (by simp [C3db])⟩

/-- C5 (amended): `set_factor` upserts whenever the raw value coerces
to a real — including a negative one, since the source has no sign
check: the new value is stored under its category and every other
category keeps its factor, with the entries table untouched; a value
`float` cannot coerce raises (Python `ValueError`, the source has no
`ValidationError` class) before any write, leaving the whole state
unchanged. -/
theorem set_factor_spec (db : DB) (c : String) (v : Option Rat) :
    (v = none → set_factor db c v = .error .valueError) ∧
    (∀ q, v = some q →
      set_factor db c v = .ok { db with factors := replaceFactor db.factors c q } ∧
      lookupFactor (replaceFactor db.factors c q) c = some q ∧
      ∀ c2, c2 ≠ c →
        lookupFactor (replaceFactor db.factors c q) c2 = lookupFactor db.factors c2) := by
  refine ⟨?_, ?_⟩
  · intro h
    rw [h]
    rfl
  · intro q h
    subst h
    exact ⟨rfl, lookupFactor_replace_same db.factors c q,
      fun c2 hc2 => lookupFactor_replace_other db.factors c c2 q hc2⟩

/-- An admin state: empty ledger, default factors. -/
def C5db : DB := DB.mk [] DEFAULT_FACTORS 1

/-- C5 counterexample: a negative factor is not rejected — the claim
says any value not coercible to a NON-NEGATIVE real fails with
`ValidationError` and leaves the table unchanged, but setting
"Paper (sheets)" to −1 succeeds and stores −1. -/
theorem set_factor_negative_accepted :
    set_factor C5db "Paper (sheets)" (some (-1)) =
      .ok (DB.mk []
        [("Plastic (kg)", 6), ("Food/Waste (kg)", 3), ("Transport (km)", 21 / 100),
         ("Paper (sheets)", -1)] 1) ∧
    lookupFactor (replaceFactor C5db.factors "Paper (sheets)" (-1)) "Paper (sheets)" =
      some (-1) := by
  constructor
  · simp [set_factor, C5db, replaceFactor, DEFAULT_FACTORS, List.filter_cons]
  · simp [C5db, replaceFactor, DEFAULT_FACTORS, List.filter_cons, lookupFactor]

/-- C5 witness: the non-numeric raw value errors with the table intact,
and a numeric upsert stores the value and keeps the other rows. -/
theorem set_factor_spec_witness :
    set_factor C5db "Transport (km)" none = .error .valueError ∧
    set_factor C5db "Transport (km)" (some 7) =
      .ok { C5db with factors := replaceFactor C5db.factors "Transport (km)" 7 } ∧
    lookupFactor (replaceFactor C5db.factors "Transport (km)" 7) "Transport (km)" =
      some 7 ∧
    lookupFactor (replaceFactor C5db.factors "Transport (km)" 7) "Plastic (kg)" =
      lookupFactor C5db.factors "Plastic (kg)" := by
  refine ⟨(set_factor_spec C5db "Transport (km)" none).1 rfl, ?_⟩
  have h := (set_factor_spec C5db "Transport (km)" (some 7)).2 7 rfl
  exact ⟨h.1, h.2.1, h.2.2 "Plastic (kg)" (by simp)⟩

/-- C2 (amended): the student leaderboard and the weekly top-3 are
computed from verified entries only — any two ledger states with the
same verified rows (in relative order) produce identical outputs for
every timeframe, so adding, changing or removing unverified entries
never changes them.  (The class comparison table is NOT so gated; see
the counterexample.) -/
theorem rankings_verified_only (db1 db2 : DB) (c1 : Option Nat) (c2 : Nat)
    (h : db1.entries.filter (fun e => e.verified = true) =
      db2.entries.filter (fun e => e.verified = true)) :
    leaderboard_rows db1 c1 = leaderboard_rows db2 c1 ∧
    weekly_top3 db1 c2 = weekly_top3 db2 c2 := by
  have hl : load_entries db1 (some true) = load_entries db2 (some true) := by
    rw [load_entries_some, load_entries_some, h]
  exact ⟨by rw [leaderboard_rows, leaderboard_rows, hl],
    by rw [weekly_top3, weekly_top3, hl]⟩

/-- A verified row for student "a" of class "X". -/
def C2entryV : Entry :=
  Entry.mk 1 1 10 "a" "X" "Paper (sheets)" 200 "sheets" "" true 0 1

/-- An UNVERIFIED row for student "b" of class "Y". -/
def C2entryU : Entry :=
  Entry.mk 2 2 10 "b" "Y" "Paper (sheets)" 1000 "sheets" "" false 0 5

/-- Ledger with only the verified row. -/
def C2dbA : DB := DB.mk [C2entryV] DEFAULT_FACTORS 3

/-- The same ledger after an unverified row is added. -/
def C2dbB : DB := DB.mk [C2entryV, C2entryU] DEFAULT_FACTORS 3

/-- C2 counterexample: adding one unverified entry changes the class
comparison output — that ranking is computed from ALL entries, not from
verified ones only as the claim states. -/
theorem class_comparison_sees_unverified :
    C2dbB.entries = C2dbA.entries ++ [C2entryU] ∧
    C2entryU.verified = false ∧
    class_emissions C2dbA = [("X", 1)] ∧
    class_emissions C2dbB = [("X", 1), ("Y", 5)] := by
  refine ⟨rfl, rfl, ?_, ?_⟩
  · norm_num [class_emissions, classAgg, load_entries, C2dbA, C2entryV,
      List.insertionSort, List.orderedInsert, tsDesc, strLe, charListLe, sumCo2,
      List.filter_cons]
  · norm_num [class_emissions, classAgg, load_entries, C2dbB, C2entryV, C2entryU,
      List.insertionSort, List.orderedInsert, tsDesc, strLe, charListLe, sumCo2,
      List.filter_cons, (by decide : ("Y" : String) ≠ "X"),
      (by decide : ("X" : String) ≠ "Y")]

/-- C2 witness: the two concrete ledgers differ exactly by the
unverified row, and leaderboard and weekly top-3 agree on them. -/
theorem rankings_verified_only_witness :
    leaderboard_rows C2dbA none = leaderboard_rows C2dbB none ∧
    weekly_top3 C2dbA 0 = weekly_top3 C2dbB 0 := by
  have h : C2dbA.entries.filter (fun e => e.verified = true) =
      C2dbB.entries.filter (fun e => e.verified = true) := by
    simp [C2dbA, C2dbB, C2entryV, C2entryU, List.filter_cons]
  exact ⟨(rankings_verified_only C2dbA C2dbB none 0 h).1,
    (rankings_verified_only C2dbA C2dbB none 0 h).2⟩

/-- The rank column of `rank_rows` is the 1-based position. -/
theorem rank_rows_map_rank (l : List ((String × String) × Rat)) :
    (rank_rows l).map RankedRow.rank = (List.range l.length).map (fun i => i + 1) := by
  unfold rank_rows
  rw [List.map_map, ← List.enum_map_fst l, List.map_map]
  rfl

/-- C4 (amended): the leaderboard's ranks are the ordinal positions
1, 2, …, n in the ascending-by-total order — `rank = index + 1` after
sorting — so tied totals receive distinct consecutive ranks, not a
shared dense rank (and the class comparison carries no rank column at
all). -/
theorem leaderboard_ranks_ordinal (db : DB) (cutoff : Option Nat) :
    (leaderboard_rows db cutoff).map RankedRow.rank =
      (List.range (leaderboard_rows db cutoff).length).map (fun i => i + 1) := by
  unfold leaderboard_rows
  rw [rank_rows_map_rank]
  have hlen : ∀ l : List ((String × String) × Rat), (rank_rows l).length = l.length := by
    intro l
    simp [rank_rows, List.enum_length]
  rw [hlen]

/-- A verified row with total 2 for student "a" of class "X". -/
def C4e1 : Entry :=
  Entry.mk 1 1 10 "a" "X" "Paper (sheets)" 400 "sheets" "" true 0 2

/-- A verified row with the SAME total 2 for student "b" of class "X". -/
def C4e2 : Entry :=
  Entry.mk 2 2 10 "b" "X" "Paper (sheets)" 400 "sheets" "" true 0 2

/-- Two students with equal verified totals. -/
def C4db : DB := DB.mk [C4e1, C4e2] DEFAULT_FACTORS 3

/-- C4 counterexample: the two groups have equal total co2 (2 and 2)
yet receive the distinct ranks 1 and 2 — ordinal positions, not the
identical dense rank the claim states. -/
theorem tied_totals_get_distinct_ranks :
    (leaderboard_rows C4db none).map RankedRow.co2 = [2, 2] ∧
    (leaderboard_rows C4db none).map RankedRow.rank = [1, 2] := by
  constructor
  · norm_num [leaderboard_rows, rank_rows, timeframe_filter, load_entries, groupAgg,
      groupKeys, keyOf, sumCo2, C4db, C4e1, C4e2, List.insertionSort,
      List.orderedInsert, tsDesc, co2Le, keyLe, strLe, charListLe, List.filter_cons,
      List.enum, (by decide : ("b" : String) ≠ "a"), (by decide : ("a" : String) ≠ "b")]
  · norm_num [leaderboard_rows, rank_rows, timeframe_filter, load_entries, groupAgg,
      groupKeys, keyOf, sumCo2, C4db, C4e1, C4e2, List.insertionSort,
      List.orderedInsert, tsDesc, co2Le, keyLe, strLe, charListLe, List.filter_cons,
      List.enum, (by decide : ("b" : String) ≠ "a"), (by decide : ("a" : String) ≠ "b")]

/-- The row the success branch of the submission handler inserts: id
from the autoincrement counter, `co2` computed from the factor table as
it stands at submission, `verified = 0` and `points = 0` as in the
inserted dict. -/
def submitted_entry (db : DB) (now_ts : Nat) (inp : FormInput) : Entry :=
  Entry.mk db.nextId now_ts inp.date_val inp.student inp.class_name inp.category
    inp.qty inp.unit inp.notes false 0
    (compute_co2 inp.category inp.qty db.factors)

/-- C6: a successful submission appends exactly one new row whose `co2`
is computed from the factor table as it stands at that moment; the
unfiltered list then contains that row exactly once; and a later
`set_factor` changes no stored entry field. -/
theorem co2_frozen_at_creation (db : DB) (now_ts : Nat) (inp : FormInput) (db2 : DB)
    (hid : ∀ e ∈ db.entries, e.id < db.nextId)
    (h : submit_entry db now_ts inp = .ok db2) :
    db2.entries = db.entries ++ [submitted_entry db now_ts inp] ∧
    (submitted_entry db now_ts inp).co2 = compute_co2 inp.category inp.qty db.factors ∧
    (load_entries db2 none).filter (fun x => x.id = db.nextId) =
      [submitted_entry db now_ts inp] ∧
    ∀ c q db3, set_factor db2 c (some q) = .ok db3 → db3.entries = db2.entries := by
  unfold submit_entry at h
  by_cases h1 : pyStrip inp.student = ""
  · rw [if_pos h1] at h
    exact absurd h (by simp)
  rw [if_neg h1] at h
  by_cases h2 : pyStrip inp.class_name = ""
  · rw [if_pos h2] at h
    exact absurd h (by simp)
  rw [if_neg h2] at h
  by_cases h3 : inp.qty ≤ 0
  · rw [if_pos h3] at h
    exact absurd h (by simp)
  rw [if_neg h3] at h
  simp only [Except.ok.injEq] at h
  subst h
  refine ⟨rfl, rfl, ?_, ?_⟩
  · show ((add_entry_to_db db _).entries.insertionSort tsDesc).filter _ = _
    rw [filter_insertionSort]
    have hfil : ((add_entry_to_db db
        (EntryData.mk now_ts inp.date_val inp.student inp.class_name inp.category
          inp.qty inp.unit inp.notes false 0
          (compute_co2 inp.category inp.qty db.factors))).entries).filter
        (fun x => decide (x.id = db.nextId)) = [submitted_entry db now_ts inp] := by
      show (db.entries ++ [_]).filter _ = _
      rw [List.filter_append]
      have h0 : db.entries.filter (fun x => decide (x.id = db.nextId)) = [] := by
        rw [List.filter_eq_nil_iff]
        intro a ha
        simp [Nat.ne_of_lt (hid a ha)]
      rw [h0]
      simp [submitted_entry]
    rw [hfil]
    rfl
  · intro c q db3 hset
    simp only [set_factor, Except.ok.injEq] at hset
    rw [← hset]

/-- A fresh ledger with the default factors. -/
def C6db : DB := DB.mk [] DEFAULT_FACTORS 1

/-- A valid submission: 200 sheets of paper. -/
def C6inp : FormInput := FormInput.mk "s" "c" 10 "Paper (sheets)" 200 "sheets" ""

/-- The state the submission produces. -/
def C6db2 : DB :=
  add_entry_to_db C6db
    (EntryData.mk 5 10 "s" "c" "Paper (sheets)" 200 "sheets" "" false 0
      (compute_co2 "Paper (sheets)" 200 C6db.factors))

/-- C6 witness: the concrete submission appends its row with
`co2 = 200 × 0.005 = 1`, the unfiltered list holds it exactly once, and
a later factor change leaves the stored entries as they were. -/
theorem co2_frozen_at_creation_witness :
    submit_entry C6db 5 C6inp = .ok C6db2 ∧
    C6db2.entries = C6db.entries ++ [submitted_entry C6db 5 C6inp] ∧
    (submitted_entry C6db 5 C6inp).co2 = 1 ∧
    (load_entries C6db2 none).filter (fun x => x.id = C6db.nextId) =
      [submitted_entry C6db 5 C6inp] ∧
    (set_factor C6db2 "Paper (sheets)" (some 9)).map DB.entries = .ok C6db2.entries := by
  have h0 : submit_entry C6db 5 C6inp = .ok C6db2 := rfl
  have h := co2_frozen_at_creation C6db 5 C6inp C6db2 (by simp [C6db]) h0
  refine ⟨h0, h.1, ?_, h.2.2.1, ?_⟩
  · rw [h.2.1]
    norm_num [compute_co2, getFactor, lookupFactor, C6db, C6inp, DEFAULT_FACTORS]
  · have h4 := h.2.2.2 "Paper (sheets)" 9
      { C6db2 with factors := replaceFactor C6db2.factors "Paper (sheets)" 9 } rfl
    simp [set_factor, Except.map, h4]

/-- A fresh ledger with the default factors. -/
def C7db : DB := DB.mk [] DEFAULT_FACTORS 1

/-- A valid submission: 1 kg of plastic, whose estimate is 6 kg CO₂. -/
def C7inp : FormInput := FormInput.mk "s" "c" 10 "Plastic (kg)" 1 "kg" ""

/-- C7 (code bug): the submission handler computes
`pts = points_for_co2(co2)` but the inserted dict carries the literal
`points: 0`, so the stored entry has `points = 0` although the score
policy applied to its `co2 = 6` gives 12. -/
theorem points_stored_zero :
    (submit_entry C7db 5 C7inp).map (fun d => d.entries.map fun e => (e.co2, e.points)) =
      .ok [((6 : Rat), (0 : Int))] ∧
    points_for_co2 6 = 12 := by
  constructor
  · norm_num [submit_entry, C7db, C7inp, add_entry_to_db, compute_co2, getFactor,
      lookupFactor, DEFAULT_FACTORS, Except.map,
      (by decide : pyStrip "s" = "s"), (by decide : pyStrip "c" = "c"),
      (by decide : ("s" : String) ≠ ""), (by decide : ("c" : String) ≠ ""),
      (by decide : ("Paper (sheets)" : String) ≠ "Plastic (kg)")]
  · have h1 : max (1 : Rat) (6 * 2) = 12 := by norm_num
    rw [points_for_co2, h1, pyRound]
    norm_num

/-- The stored quantities are all strictly positive. -/
def allPosQty (l : List Entry) : Bool := l.all fun e => 0 < e.quantity

/-- C10: the submission boundary rejects `quantity ≤ 0` (so 0 as well
as negative values) and blank student or class names, each before any
mutation, so a ledger whose entries all have positive quantity keeps
that property across every submission: every stored entry has
`quantity > 0`. -/
theorem submission_positive_quantity (db : DB) (now_ts : Nat) (inp : FormInput)
    (db2 : DB) (hq : allPosQty db.entries = true) :
    (inp.qty ≤ 0 → submit_entry db now_ts inp ≠ .ok db2) ∧
    (pyStrip inp.student = "" → submit_entry db now_ts inp = .error .studentRequired) ∧
    (pyStrip inp.student ≠ "" → pyStrip inp.class_name = "" →
      submit_entry db now_ts inp = .error .classRequired) ∧
    (submit_entry db now_ts inp = .ok db2 →
      0 < inp.qty ∧ allPosQty db2.entries = true) := by
  refine ⟨?_, ?_, ?_, ?_⟩
  · intro h3 hok
    unfold submit_entry at hok
    by_cases h1 : pyStrip inp.student = ""
    · rw [if_pos h1] at hok
      exact absurd hok (by simp)
    rw [if_neg h1] at hok
    by_cases h2 : pyStrip inp.class_name = ""
    · rw [if_pos h2] at hok
      exact absurd hok (by simp)
    rw [if_neg h2, if_pos h3] at hok
    exact absurd hok (by simp)
  · intro h1
    unfold submit_entry
    rw [if_pos h1]
  · intro h1 h2
    unfold submit_entry
    rw [if_neg h1, if_pos h2]
  · intro hok
    unfold submit_entry at hok
    by_cases h1 : pyStrip inp.student = ""
    · rw [if_pos h1] at hok
      exact absurd hok (by simp)
    rw [if_neg h1] at hok
    by_cases h2 : pyStrip inp.class_name = ""
    · rw [if_pos h2] at hok
      exact absurd hok (by simp)
    rw [if_neg h2] at hok
    by_cases h3 : inp.qty ≤ 0
    · rw [if_pos h3] at hok
      exact absurd hok (by simp)
    rw [if_neg h3] at hok
    simp only [Except.ok.injEq] at hok
    subst hok
    refine ⟨lt_of_not_le h3, ?_⟩
    show (db.entries ++ [_]).all _ = true
    rw [List.all_append]
    unfold allPosQty at hq
    rw [hq]
    simpa using lt_of_not_le h3

/-- A fresh ledger with the default factors. -/
def C10db : DB := DB.mk [] DEFAULT_FACTORS 1

/-- A valid submission. -/
def C10good : FormInput := FormInput.mk "s" "c" 10 "Paper (sheets)" 200 "sheets" ""

/-- A submission with quantity 0. -/
def C10zero : FormInput := FormInput.mk "s" "c" 10 "Paper (sheets)" 0 "sheets" ""

/-- A submission whose student name is whitespace only. -/
def C10blank : FormInput := FormInput.mk "   " "c" 10 "Paper (sheets)" 200 "sheets" ""

/-- The state the valid submission produces. -/
def C10db2 : DB :=
  add_entry_to_db C10db
    (EntryData.mk 5 10 "s" "c" "Paper (sheets)" 200 "sheets" "" false 0
      (compute_co2 "Paper (sheets)" 200 C10db.factors))

/-- C10 witness: quantity 0 is rejected, the whitespace-only student
name is rejected, and the accepted submission leaves every stored
quantity strictly positive. -/
theorem submission_positive_quantity_witness :
    (submit_entry C10db 5 C10zero ≠ .ok C10db2) ∧
    (submit_entry C10db 5 C10blank = .error .studentRequired) ∧
    (0 < C10good.qty ∧ allPosQty C10db2.entries = true) :=
  ⟨(submission_positive_quantity C10db 5 C10zero C10db2 rfl).1 (le_refl 0),
   (submission_positive_quantity C10db 5 C10blank C10db2 rfl).2.1 rfl,
   (submission_positive_quantity C10db 5 C10good C10db2 rfl).2.2.2 rfl⟩

end EcoSchool
